import Mathlib

/-!
Verification of the sales/inventory assistant frontend and its
inventory-sync contract.

The development shallowly embeds the TypeScript components of the
repository (chat session state machine, sale-cart modal, edit-inventory
modal, create-product modal, message rendering) and, where the claim
concerns the backend transaction manager whose Python sources are not
part of the frontend tree, a model built from the specification.

Conventions of the embedding:
* JavaScript numbers used as money are modelled as `Rat`; quantities as
  `Int` (all quantity arithmetic in the sources is integral).
* Optional JS fields (`loading?: boolean`, `data?: ...`) are modelled as
  `Option` fields; a missing boolean is `false`.
* `generateId()` (a random string in the sources) is modelled as a
  counter carried by the state; no claim depends on id contents.
* `Date` timestamps are omitted: no claim mentions them.
-/

namespace Chat

/-- A chart attached to a message (`ChartData` in `types/chat.ts`). -/
structure ChartData where
  type : String
  title : String
  deriving Repr, DecidableEq

/-- The structured analysis payload of a message (`AnalysisData` in
`types/chat.ts`).  Only the `visualizations` key is inspected by the
rendering logic; the remaining keys of the open record are abstracted
as a count of other present keys, so that `Object.keys(data).length`
is representable. -/
structure AnalysisData where
  visualizations : Option (List ChartData)
  otherKeysCount : Nat
  deriving Repr, DecidableEq

/-- Number of keys of the JS object backing an `AnalysisData` value. -/
def AnalysisData.keysCount (d : AnalysisData) : Nat :=
  d.otherKeysCount + (if d.visualizations.isSome then 1 else 0)

inductive Role where
  | user
  | assistant
  deriving Repr, DecidableEq

/-- Embeds `ChatMessage` from `types/chat.ts` (timestamp omitted, absent
`loading` modelled as `false`). -/
structure ChatMessage where
  id : Nat
  role : Role
  content : String
  data : Option AnalysisData := none
  charts : Option (List ChartData) := none
  workflow_id : Option String := none
  loading : Bool := false
  deriving Repr, DecidableEq

/-- Embeds `ChatResponse` from `types/chat.ts`. -/
structure ChatResponse where
  response : String
  data : Option AnalysisData := none
  charts : Option (List ChartData) := none
  workflow_id : Option String := none
  deriving Repr, DecidableEq

end Chat

namespace ChatInterface

open Chat

/-- The state of the chat session kept by `ChatInterface`:
the message log, the input field and the in-flight flag, plus the id
counter standing in for `generateId()`. -/
structure State where
  messages : List ChatMessage
  inputValue : String
  isLoading : Bool
  nextId : Nat
  deriving Repr, DecidableEq

/-- The welcome message installed by the initial `useState`. -/
def welcomeMessage : ChatMessage :=
  { id := 0
    role := .assistant
    content := "¡Bienvenido a SmartStock AI!" }

/-- The initial state of `ChatInterface`. -/
def initialState : State :=
  { messages := [welcomeMessage]
    inputValue := ""
    isLoading := false
    nextId := 1 }

/-- Computes `const messageText = message || inputValue.trim()` — the JS `||`
falls through on the empty string. -/
def messageTextOf (s : State) (message : Option String) : String :=
  match message with
  | some m => if m = "" then s.inputValue.trim else m
  | none => s.inputValue.trim

/-- First phase of `handleSendMessage`: the guard
`if (!messageText || isLoading) return;` followed by the single
`setMessages` appending the user turn and the loading placeholder, the
clearing of the input and the setting of `isLoading`. -/
def sendStart (s : State) (message : Option String) : State :=
  let messageText := messageTextOf s message
  if messageText = "" ∨ s.isLoading then s
  else
    let userMessage : ChatMessage :=
      { id := s.nextId, role := .user, content := messageText }
    let loadingMessage : ChatMessage :=
      { id := s.nextId + 1
        role := .assistant
        content := "Analizando tu solicitud..."
        loading := true }
    { messages := s.messages ++ [userMessage, loadingMessage]
      inputValue := ""
      isLoading := true
      nextId := s.nextId + 2 }

/-- Success continuation of `handleSendMessage`: `prev.slice(0, -1)`
followed by appending the real assistant message built from the
response, and the `finally` clause clearing `isLoading`. -/
def resolveSuccess (s : State) (response : ChatResponse) : State :=
  let assistantMessage : ChatMessage :=
    { id := s.nextId
      role := .assistant
      content := response.response
      data := response.data
      charts := response.charts
      workflow_id := response.workflow_id }
  { s with
    messages := s.messages.dropLast ++ [assistantMessage]
    isLoading := false
    nextId := s.nextId + 1 }

/-- Error continuation of `handleSendMessage`: `prev.slice(0, -1)`
followed by appending the error-explaining assistant message, and the
`finally` clause clearing `isLoading`. -/
def resolveError (s : State) (errorText : String) : State :=
  let errorMessage : ChatMessage :=
    { id := s.nextId
      role := .assistant
      content := "Lo siento, ocurrió un error: " ++ errorText ++
        ". Por favor, inténtalo de nuevo." }
  { s with
    messages := s.messages.dropLast ++ [errorMessage]
    isLoading := false
    nextId := s.nextId + 1 }

/-- Typing into the input field (`onChange` of the input). -/
def setInput (s : State) (v : String) : State :=
  { s with inputValue := v }

/-- The modal callbacks (`handleSaleCreated`, `handleProductsCreated`,
`handleProductEdited`) appending a plain assistant turn.  The UI only
lets a modal open while no chat request is in flight (`QuickActions`
has `disabled={isLoading}`) and the full-screen modal overlay blocks
the chat input while it is open, so the callback fires with
`isLoading = false`; the step relation below guards it accordingly. -/
def appendAssistant (s : State) (content : String) : State :=
  { s with
    messages := s.messages ++
      [{ id := s.nextId, role := .assistant, content := content }]
    nextId := s.nextId + 1 }

/-- Reachable chat-session states: the initial state, typing, sending,
and resolving an in-flight request (`isLoading = true` is exactly the
request-in-flight condition, since `sendStart` sets it when it issues
the request and the continuations clear it), plus the modal callbacks
firing while no request is in flight. -/
inductive Reachable : State → Prop where
  | init : Reachable initialState
  | type (s : State) (v : String) : Reachable s → Reachable (setInput s v)
  | send (s : State) (msg : Option String) :
      Reachable s → Reachable (sendStart s msg)
  | success (s : State) (r : ChatResponse) :
      Reachable s → s.isLoading = true → Reachable (resolveSuccess s r)
  | failure (s : State) (e : String) :
      Reachable s → s.isLoading = true → Reachable (resolveError s e)
  | modal (s : State) (c : String) :
      Reachable s → s.isLoading = false → Reachable (appendAssistant s c)

/-- Number of loading placeholder turns in a message list. -/
def loadingCount (l : List ChatMessage) : Nat :=
  l.countP (fun m => m.loading)

/-- Number of assistant turns in a message list. -/
def assistantCount (l : List ChatMessage) : Nat :=
  l.countP (fun m => m.role == Role.assistant)

/-- The placeholder discipline: while a request is in flight the log is
some prefix without placeholders followed by the single placeholder;
otherwise the log has no placeholder at all. -/
def PlaceholderInv (s : State) : Prop :=
  (s.isLoading = true →
    ∃ pre lst, s.messages = pre ++ [lst] ∧ lst.loading = true ∧
      loadingCount pre = 0) ∧
  (s.isLoading = false → loadingCount s.messages = 0)

end ChatInterface

namespace MessageItem

open Chat

/-- Holds when `message.data?.visualizations` is truthy: the field is present
(a JS array, even an empty one, is truthy). -/
def hasVisualizations (m : ChatMessage) : Bool :=
  match m.data with
  | some d => d.visualizations.isSome
  | none => false

/-- The guard of the analysis block:
`message.data && !isUser && Object.keys(message.data).length > 0`.
Both branches of the inner ternary render `AnalysisDisplay`, so this is
the condition under which the analysis panel appears; the panel carries
the visualizations exactly when `data.visualizations` is present. -/
def rendersAnalysisBlock (m : ChatMessage) : Bool :=
  match m.data with
  | some d => !(m.role == Role.user) && decide (0 < d.keysCount)
  | none => false

/-- The visualizations panel: the analysis block rendered for a message
whose `data.visualizations` is present. -/
def rendersVisualizationsPanel (m : ChatMessage) : Bool :=
  rendersAnalysisBlock m && hasVisualizations m

/-- The guard of the legacy chart block:
`!isUser && message.charts && Array.isArray(message.charts) &&
message.charts.length > 0 && !message.data?.visualizations`. -/
def rendersLegacyCharts (m : ChatMessage) : Bool :=
  !(m.role == Role.user) &&
    (match m.charts with
     | some cs => !cs.isEmpty
     | none => false) &&
    !hasVisualizations m

end MessageItem

namespace CreateSaleModal

/-- The `Product` record served by `/inventory/products-with-stock`, as
declared in `CreateSaleModal.tsx`. -/
structure Product where
  id : Int
  name : String
  sku : String
  price : Rat
  category : String
  stock_quantity : Int
  stock_status : String
  location : String
  available_for_sale : Bool
  deriving Repr, DecidableEq

/-- A cart line (`CartItem` in `CreateSaleModal.tsx`). -/
structure CartItem where
  product_id : Int
  quantity : Int
  name : String
  price : Rat
  subtotal : Rat
  stock_quantity : Int
  deriving Repr, DecidableEq

/-- The slice of the modal state touched by the cart operations. -/
structure ModalState where
  products : List Product
  cart : List CartItem
  error : Option String
  deriving Repr, DecidableEq

/-- The modal state right after the products are loaded and the cart is
reset (`useEffect` on open: `setCart([]); setError(null)`). -/
def initModalState (products : List Product) : ModalState :=
  { products := products, cart := [], error := none }

/-- The insufficient-stock message template of `updateQuantity`. -/
def insufficientStockMsg (name : String) (available : Int) : String :=
  "Stock insuficiente para " ++ name ++ ". Máximo disponible: " ++
    toString available

/-- Embeds `removeFromCart` from `CreateSaleModal.tsx`. -/
def removeFromCart (s : ModalState) (productId : Int) : ModalState :=
  { s with cart := s.cart.filter (fun item => item.product_id != productId) }

/-- Embeds `updateQuantity` from `CreateSaleModal.tsx`. -/
def updateQuantity (s : ModalState) (productId : Int)
    (newQuantity : Int) : ModalState :=
  if newQuantity ≤ 0 then removeFromCart s productId
  else
    match s.products.find? (fun p => p.id == productId) with
    | none => s
    | some product =>
      if product.stock_quantity < newQuantity then
        { s with
          error := some
            (insufficientStockMsg product.name product.stock_quantity) }
      else
        { s with
          cart := s.cart.map (fun item =>
            if item.product_id == productId then
              { item with
                quantity := newQuantity
                subtotal := item.price * (newQuantity : Rat) }
            else item)
          error := none }

/-- Embeds `addToCart` from `CreateSaleModal.tsx`. -/
def addToCart (s : ModalState) (product : Product) : ModalState :=
  match s.cart.find? (fun item => item.product_id == product.id) with
  | some existingItem => updateQuantity s product.id (existingItem.quantity + 1)
  | none =>
    { s with cart := s.cart ++
        [{ product_id := product.id
           quantity := 1
           name := product.name
           price := product.price
           subtotal := product.price
           stock_quantity := product.stock_quantity }] }

/-- Embeds `getTotalAmount` from `CreateSaleModal.tsx`. -/
def getTotalAmount (s : ModalState) : Rat :=
  s.cart.foldl (fun total item => total + item.subtotal) 0

/-- The cart operations available in the modal UI. -/
inductive CartOp where
  | add (product : Product)
  | update (productId : Int) (newQuantity : Int)
  | remove (productId : Int)
  deriving Repr

/-- Apply one cart operation. -/
def applyOp (s : ModalState) : CartOp → ModalState
  | .add p => addToCart s p
  | .update pid q => updateQuantity s pid q
  | .remove pid => removeFromCart s pid

/-- Run a sequence of cart operations. -/
def runOps (s : ModalState) (ops : List CartOp) : ModalState :=
  ops.foldl applyOp s

end CreateSaleModal

namespace EditInventoryModal

/-- The `CATEGORIES` constant of `EditInventoryModal.tsx`: internal
(storage) category name paired with its Spanish display name. -/
def CATEGORIES : List (String × String) :=
  [("Electronics", "Electrónicos"),
   ("Furniture", "Muebles"),
   ("Appliances", "Electrodomésticos"),
   ("Clothing", "Ropa"),
   ("Books", "Libros"),
   ("Sports", "Deportes"),
   ("Automotive", "Automóviles"),
   ("Food", "Alimentos"),
   ("Other", "Otros")]

/-- Computes `CATEGORIES[product.category] || product.category`: the display
name shown in the form for a stored category. -/
def displayCategory (c : String) : String :=
  match CATEGORIES.find? (fun kv => kv.1 == c) with
  | some kv => kv.2
  | none => c

/-- Computes `Object.keys(CATEGORIES).find(key => CATEGORIES[key] ===
editForm.category) || editForm.category`: the internal name sent to the
API for a display name. -/
def internalCategory (display : String) : String :=
  match CATEGORIES.find? (fun kv => kv.2 == display) with
  | some kv => kv.1
  | none => display

/-- The product record as listed by the edit modal (same REST shape as
in `CreateSaleModal.tsx`). -/
structure Product where
  id : Int
  name : String
  sku : String
  price : Rat
  category : String
  stock_quantity : Int
  deriving Repr, DecidableEq

/-- The edit form state with numeric fields already parsed
(`parseFloat`/`parseInt` of the text inputs); `minimum_stock` and
`maximum_stock` are `none` when the optional inputs are left empty. -/
structure EditForm where
  name : String
  price : Rat
  quantity : Int
  category : String
  minimum_stock : Option Int
  maximum_stock : Option Int
  deriving Repr, DecidableEq

/-- The sparse request body sent to `/inventory/edit-product`: a field
is `none` exactly when it is absent from the JSON object. -/
structure EditRequest where
  product_id : Int
  name : Option String
  price : Option Rat
  quantity : Option Int
  category : Option String
  minimum_stock : Option Int
  maximum_stock : Option Int
  deriving Repr, DecidableEq

/-- The request-building part of `handleSubmit` in
`EditInventoryModal.tsx`: each field is added to `editRequest` only
when the form value differs from the selected product's value (the
category comparison happens on display names, and the sent category is
translated back to the internal name). -/
def buildEditRequest (selectedProduct : Product) (editForm : EditForm) :
    EditRequest :=
  { product_id := selectedProduct.id
    name :=
      if editForm.name ≠ selectedProduct.name then some editForm.name
      else none
    price :=
      if editForm.price ≠ selectedProduct.price then some editForm.price
      else none
    quantity :=
      if editForm.quantity ≠ selectedProduct.stock_quantity then
        some editForm.quantity
      else none
    category :=
      if editForm.category ≠ displayCategory selectedProduct.category then
        some (internalCategory editForm.category)
      else none
    minimum_stock := editForm.minimum_stock
    maximum_stock := editForm.maximum_stock }

/-- The validation failures of the spec's `edit_product`. -/
inductive EditError where
  | invalidPrice
  | invalidQuantity
  deriving Repr, DecidableEq

/-- Modelled from the spec: the sparse-patch merge of the backend
`edit_product` handler, which is not among the sources (only the
FastAPI project manifest is) — "applies only the fields present in the
request (sparse patch semantics); unspecified fields retain prior
values" — restricted to the fields the frontend product record
carries. -/
def applyPatch (p : Product) (r : EditRequest) : Product :=
  { p with
    name := r.name.getD p.name
    price := r.price.getD p.price
    stock_quantity := r.quantity.getD p.stock_quantity
    category := r.category.getD p.category }

/-- Modelled from the spec: the backend `edit_product` operation —
the sparse-patch merge guarded by "rejects edits that would set
`price <= 0` or `quantity < 0`": a request carrying a non-positive
price or a negative quantity is rejected before anything is applied.
A field left absent retains its prior value even on historically
invalid rows, which §3 says are handled defensively, so the checks
bear on the requested values. -/
def edit_product (p : Product) (r : EditRequest) :
    Except EditError Product :=
  if r.price.any (fun v => decide (v ≤ 0)) then .error .invalidPrice
  else if r.quantity.any (fun q => decide (q < 0)) then
    .error .invalidQuantity
  else .ok (applyPatch p r)

end EditInventoryModal

namespace CreateProductModal

/-- A product row of the create-product form (`ProductToAdd`);
`price`, `category` and `description` are optional until filled in. -/
structure ProductToAdd where
  id : String
  name : String
  quantity : Int
  category : Option String
  price : Option Rat
  description : Option String
  deriving Repr, DecidableEq

/-- The `CATEGORIES` constant of `CreateProductModal` (the claim-cited
revision): it maps each Spanish display name to itself. -/
def CATEGORIES : List (String × String) :=
  [("Electrónicos", "Electrónicos"),
   ("Muebles", "Muebles"),
   ("Electrodomésticos", "Electrodomésticos"),
   ("Ropa", "Ropa"),
   ("Libros", "Libros"),
   ("Deportes", "Deportes"),
   ("Automóviles", "Automóviles"),
   ("Alimentos", "Alimentos"),
   ("Otros", "Otros")]

/-- Computes `CATEGORIES[product.category!] || 'Other'`: the category string the
add-product flow sends to `/inventory/add-product` for a selected
display category. -/
def sentCategory (display : String) : String :=
  match CATEGORIES.find? (fun kv => kv.1 == display) with
  | some kv => kv.2
  | none => "Other"

/-- JS `String.prototype.trim`, modelled executably over the character
list (the core `String.trim` does not reduce inside the kernel, which
would make concrete evaluation impossible). -/
def trim (s : String) : String :=
  ⟨((s.data.dropWhile Char.isWhitespace).reverse.dropWhile
      Char.isWhitespace).reverse⟩

/-- The validation errors contributed by the product at position
`index` (`validateProducts` pushes them in this order).  JS truthiness:
`!product.price` is true when the field is absent or `0`, which the
subsequent `price <= 0` check subsumes. -/
def productErrors (index : Nat) (product : ProductToAdd) : List String :=
  (if trim product.name = "" then
    ["Producto " ++ toString (index + 1) ++ ": El nombre es obligatorio"]
   else []) ++
  (if product.quantity < 1 then
    ["Producto " ++ toString (index + 1) ++
      ": La cantidad debe ser mayor a 0"]
   else []) ++
  (if (match product.price with
       | none => true
       | some v => v ≤ 0) then
    ["Producto " ++ toString (index + 1) ++
      ": El precio es obligatorio y debe ser mayor a 0"]
   else []) ++
  (if (match product.category with
       | none => true
       | some c => trim c = "") then
    ["Producto " ++ toString (index + 1) ++ ": La categoría es obligatoria"]
   else [])

/-- Embeds `validateProducts` from `CreateProductModal`: the errors pushed by
the `forEach` over all products, in order. -/
def validateProducts (products : List ProductToAdd) : List String :=
  (products.enum.map (fun ip => productErrors ip.1 ip.2)).flatten

/-- The property a product row must satisfy to contribute no
validation error: non-empty trimmed name, quantity at least 1,
present positive price, present non-blank category. -/
def ValidProduct (p : ProductToAdd) : Prop :=
  trim p.name ≠ "" ∧ 1 ≤ p.quantity ∧
    (∃ v, p.price = some v ∧ 0 < v) ∧
    (∃ c, p.category = some c ∧ trim c ≠ "")


/-- The outcome of `POST /inventory/add-product` for one product: the
backend is external to the loop, so it is abstracted as a function from
the product to either success or an error detail string. -/
def Oracle : Type := ProductToAdd → Except String Unit

/-- The submission loop of `handleSubmit`: each product is posted
individually inside its own `try`/`catch`, successes accumulate in
`results` (the product names) and failures in `failures`
(`` `${product.name}: ${errorMessage}` ``); a failure does not stop
the loop. -/
def submitLoop (oracle : Oracle) (products : List ProductToAdd) :
    List String × List String :=
  products.foldl
    (fun acc product =>
      match oracle product with
      | .ok _ => (acc.1 ++ [product.name], acc.2)
      | .error msg => (acc.1, acc.2 ++ [product.name ++ ": " ++ msg]))
    ([], [])

/-- The repeated `message += bullet line` append of `handleSubmit`,
applied over a list. -/
def appendBullets (init : String) (items : List String) : String :=
  items.foldl (fun m item => m ++ ("• " ++ item ++ "\n")) init

/-- The success section of the result message assembled by
`handleSubmit` (empty when nothing succeeded). -/
def successPart (results : List String) : String :=
  if 0 < results.length then
    appendBullets
      ("✅ **" ++ toString results.length ++
        " producto(s) agregado(s) exitosamente:**\n\n")
      results
  else ""

/-- The result message assembled by `handleSubmit` from the success and
failure lists. -/
def buildMessage (results failures : List String) : String :=
  if 0 < failures.length then
    appendBullets
      (successPart results ++ "\n❌ **" ++ toString failures.length ++
        " producto(s) fallaron:**\n\n")
      failures
  else successPart results

/-- Embeds `handleSubmit`: when validation fails no request at all is issued
(`none`); otherwise every product is submitted and the success list,
failure list and assembled message are produced. -/
def handleSubmit (oracle : Oracle) (products : List ProductToAdd) :
    Option (List String × List String × String) :=
  if validateProducts products ≠ [] then none
  else
    let rf := submitLoop oracle products
    some (rf.1, rf.2, buildMessage rf.1 rf.2)

end CreateProductModal

namespace InventorySync

/-- Modelled from the spec: the whole backend Inventory-Sync
Transaction Manager (`create_order_with_inventory_sync` and the
product store it mutates) is absent from the sources — only the
frontend callers and the FastAPI project manifest are present — so the
data model and the operation are taken from §3 and §4.1 of the
specification. A stored product row. -/
structure Product where
  id : Int
  sku : String
  name : String
  price : Rat
  quantity : Int
  deriving Repr, DecidableEq

/-- A line item of a proposed order. -/
structure OrderItem where
  product_id : Int
  quantity : Int
  deriving Repr, DecidableEq

/-- The failure modes of `create_order_with_inventory_sync` named by
the specification. -/
inductive OrderError where
  | emptyOrder
  | invalidQuantity (product_id : Int)
  | productNotFound (product_id : Int)
  | insufficientStock (product_id : Int) (product_name : String)
      (requested : Int) (available : Int)
  | invalidPaymentMethod (method : String)
  deriving Repr, DecidableEq

/-- The per-line reconciliation record returned after a committed
order. -/
structure InventoryUpdate where
  product_id : Int
  product_name : String
  previous_quantity : Int
  new_quantity : Int
  quantity_sold : Int
  deriving Repr, DecidableEq

/-- The committed order summary. -/
structure CommittedOrder where
  order_number : Nat
  total_amount : Rat
  items_count : Nat
  deriving Repr, DecidableEq

/-- The successful outcome of the operation. -/
structure OrderResult where
  order : CommittedOrder
  inventory_updates : List InventoryUpdate
  deriving Repr, DecidableEq

/-- The payment methods of the recognized enum (the options offered by
the sale modal). -/
def paymentMethods : List String :=
  ["credit_card", "debit_card", "cash", "transfer"]

/-- The product store keyed by id lookup. -/
def lookup (store : List Product) (pid : Int) : Option Product :=
  store.find? (fun p => p.id == pid)

/-- Modelled from the spec: the validation pass of §4.1 — before any
mutation, each item's quantity must be at least 1, its product must
resolve, and the requested quantity must not exceed the available one;
the first violated constraint aborts with the matching error. -/
def validateItems (store : List Product) : List OrderItem → Option OrderError
  | [] => none
  | item :: rest =>
    if item.quantity < 1 then some (.invalidQuantity item.product_id)
    else
      match lookup store item.product_id with
      | none => some (.productNotFound item.product_id)
      | some p =>
        if p.quantity < item.quantity then
          some (.insufficientStock p.id p.name item.quantity p.quantity)
        else validateItems store rest

/-- Modelled from the spec: the commit pass of §4.1 — per item,
decrement the product's quantity, record the reconciliation entry and
accumulate the subtotal at the commit-time price. -/
def commitItems (store : List Product) (items : List OrderItem) :
    List Product × List InventoryUpdate × Rat :=
  items.foldl
    (fun acc item =>
      match lookup acc.1 item.product_id with
      | none => acc
      | some p =>
        (acc.1.map (fun q =>
            if q.id == item.product_id then
              { q with quantity := q.quantity - item.quantity }
            else q),
         acc.2.1 ++
           [{ product_id := p.id
              product_name := p.name
              previous_quantity := p.quantity
              new_quantity := p.quantity - item.quantity
              quantity_sold := item.quantity }],
         acc.2.2 + p.price * (item.quantity : Rat)))
    (store, [], 0)

/-- Modelled from the spec: `create_order_with_inventory_sync` of §4.1
— validate-then-commit as a single all-or-nothing operation.  The
returned store is the input store on every failure path (no partial
commit); `order_number` generation is abstracted as a parameter. -/
def create_order_with_inventory_sync (store : List Product)
    (items : List OrderItem) (payment_method : String)
    (order_number : Nat) :
    Except OrderError OrderResult × List Product :=
  if items.isEmpty then (.error .emptyOrder, store)
  else if payment_method ∉ paymentMethods then
    (.error (.invalidPaymentMethod payment_method), store)
  else
    match validateItems store items with
    | some e => (.error e, store)
    | none =>
      let c := commitItems store items
      (.ok
        { order := { order_number := order_number
                     total_amount := c.2.2
                     items_count := items.length }
          inventory_updates := c.2.1 },
       c.1)

end InventorySync

namespace Fixtures

/-- The specification's scenario product: `id:1, sku:"LAP-001",
price:1000, quantity:5`, shaped as the REST product record. -/
def lap : CreateSaleModal.Product :=
  { id := 1
    name := "Laptop"
    sku := "LAP-001"
    price := 1000
    category := "Electronics"
    stock_quantity := 5
    stock_status := "normal"
    location := "A1"
    available_for_sale := true }

/-- A cart holding three laptops. -/
def lapItem : CreateSaleModal.CartItem :=
  { product_id := 1
    quantity := 3
    name := "Laptop"
    price := 1000
    subtotal := 3000
    stock_quantity := 5 }

/-- A sale-modal state with the scenario product loaded and in the
cart. -/
def saleState : CreateSaleModal.ModalState :=
  { products := [lap]
    cart := [lapItem]
    error := none }

/-- The scenario product as a stored backend row. -/
def lapRow : InventorySync.Product :=
  { id := 1
    sku := "LAP-001"
    name := "Laptop"
    price := 1000
    quantity := 5 }

/-- A chat state with a request in flight: the user turn and the
loading placeholder are the last two messages. -/
def loadedChatState : ChatInterface.State :=
  { messages :=
      [ChatInterface.welcomeMessage,
       { id := 1, role := .user, content := "hola" },
       { id := 2
         role := .assistant
         content := "Analizando tu solicitud..."
         loading := true }]
    inputValue := ""
    isLoading := true
    nextId := 3 }

/-- The edit form as initialised from the scenario product (every
field unchanged). -/
def lapEditForm : EditInventoryModal.EditForm :=
  { name := "Laptop"
    price := 1000
    quantity := 5
    category := "Electrónicos"
    minimum_stock := none
    maximum_stock := none }

/-- The scenario product as listed by the edit modal. -/
def lapEditProduct : EditInventoryModal.Product :=
  { id := 1
    name := "Laptop"
    sku := "LAP-001"
    price := 1000
    category := "Electronics"
    stock_quantity := 5 }

/-- A valid create-product row (the specification's add-product
scenario with `price:50, quantity:10, category:"Electronics"`, whose
display name the form would hold). -/
def goodRow : CreateProductModal.ProductToAdd :=
  { id := "1"
    name := "Mouse"
    quantity := 10
    category := some "Electrónicos"
    price := some 50
    description := none }

/-- A second create-product row. -/
def otherRow : CreateProductModal.ProductToAdd :=
  { id := "2"
    name := "Teclado"
    quantity := 2
    category := some "Electrónicos"
    price := some 20
    description := none }

/-- An invalid create-product row: `price:0`. -/
def badRow : CreateProductModal.ProductToAdd :=
  { id := "3"
    name := "Pad"
    quantity := 1
    category := some "Electrónicos"
    price := some 0
    description := none }

/-- An oracle failing exactly on `otherRow`, with a duplicate-SKU
detail. -/
def failSecond : CreateProductModal.Oracle :=
  fun p => if p.id = "2" then .error "SKU duplicado" else .ok ()

end Fixtures

/-- C6: when rendering an assistant turn, the legacy charts block is
rendered exactly when the message is not a user turn, `charts` is a
present non-empty array and `data.visualizations` is absent; hence no
message ever renders both the visualizations panel and the legacy
charts. -/
theorem legacy_charts_suppressed_by_visualizations (m : Chat.ChatMessage) :
    (MessageItem.rendersLegacyCharts m = true ↔
      m.role ≠ Chat.Role.user ∧
        (∃ cs, m.charts = some cs ∧ cs ≠ []) ∧
        MessageItem.hasVisualizations m = false) ∧
    ¬(MessageItem.rendersLegacyCharts m = true ∧
      MessageItem.rendersVisualizationsPanel m = true) := by
  constructor
  · unfold MessageItem.rendersLegacyCharts
    cases hc : m.charts with
    | none => simp
    | some cs =>
      cases hr : m.role <;>
        simp [List.isEmpty_iff, and_assoc]
  · rintro ⟨hl, hv⟩
    unfold MessageItem.rendersLegacyCharts at hl
    unfold MessageItem.rendersVisualizationsPanel at hv
    simp only [Bool.and_eq_true, Bool.not_eq_true'] at hl hv
    rw [hl.2] at hv
    exact Bool.false_ne_true hv.2

/-- C5: the edit-product request is a sparse patch — each of the
`name`, `price`, `quantity` and `category` fields is absent from the
request exactly when the form value equals the selected product's
stored value (category compared through the display mapping); a
request whose price field is non-positive or whose quantity field is
negative is rejected by the spec's `edit_product`, and an accepted
request is applied with every absent field retaining its prior
value. -/
theorem edit_request_is_sparse_patch (p : EditInventoryModal.Product)
    (f : EditInventoryModal.EditForm) :
    ((EditInventoryModal.buildEditRequest p f).name = none ↔
      f.name = p.name) ∧
    ((EditInventoryModal.buildEditRequest p f).price = none ↔
      f.price = p.price) ∧
    ((EditInventoryModal.buildEditRequest p f).quantity = none ↔
      f.quantity = p.stock_quantity) ∧
    ((EditInventoryModal.buildEditRequest p f).category = none ↔
      f.category = EditInventoryModal.displayCategory p.category) ∧
    EditInventoryModal.edit_product p
        (EditInventoryModal.buildEditRequest p f) =
      (if f.price ≠ p.price ∧ f.price ≤ 0 then
        Except.error EditInventoryModal.EditError.invalidPrice
      else if f.quantity ≠ p.stock_quantity ∧ f.quantity < 0 then
        Except.error EditInventoryModal.EditError.invalidQuantity
      else Except.ok
        { p with
          name := f.name
          price := f.price
          stock_quantity := f.quantity
          category :=
            if f.category =
                EditInventoryModal.displayCategory p.category then
              p.category
            else EditInventoryModal.internalCategory f.category }) := by
  refine ⟨?_, ?_, ?_, ?_, ?_⟩ <;>
    simp only [EditInventoryModal.buildEditRequest,
      EditInventoryModal.edit_product, EditInventoryModal.applyPatch] <;>
    split_ifs with h <;>
    simp_all [Option.any]

/-- C9 counterexample: for the display category "Electrónicos" the
add-product flow sends the Spanish name itself while the edit-product
flow sends the English storage name, so the two flows do not send the
same internal representation for the same display category. -/
theorem category_flows_divergence :
    CreateProductModal.sentCategory "Electrónicos" = "Electrónicos" ∧
    EditInventoryModal.internalCategory "Electrónicos" = "Electronics" ∧
    CreateProductModal.sentCategory "Electrónicos" ≠
      EditInventoryModal.internalCategory "Electrónicos" := by
  decide

/-- C9 amended: the edit-product flow's category mapping is total and
invertible — internal to display and back is the identity on the fixed
set, and display to internal and back likewise — but the add-product
flow uses a distinct identity mapping on the Spanish display names, so
the two flows send different internal representations to the server
for the same display category ("Electronics" versus "Electrónicos"). -/
theorem category_mapping_invertible_but_flows_disagree :
    (EditInventoryModal.CATEGORIES.all (fun kv =>
      EditInventoryModal.internalCategory
        (EditInventoryModal.displayCategory kv.1) == kv.1) = true) ∧
    (EditInventoryModal.CATEGORIES.all (fun kv =>
      EditInventoryModal.displayCategory
        (EditInventoryModal.internalCategory kv.2) == kv.2) = true) ∧
    (CreateProductModal.CATEGORIES.all (fun kv =>
      CreateProductModal.sentCategory kv.1 == kv.1) = true) ∧
    EditInventoryModal.internalCategory "Electrónicos" ≠
      CreateProductModal.sentCategory "Electrónicos" := by
  decide

/-- C4: updating a cart line to a quantity above the referenced
product's stock is rejected: the error names the product and the
maximum available quantity and the cart is left unchanged. -/
theorem cart_update_rejects_insufficient_stock
    (s : CreateSaleModal.ModalState) (productId newQuantity : Int)
    (product : CreateSaleModal.Product)
    (hfind : s.products.find? (fun p => p.id == productId) = some product)
    (hpos : 0 < newQuantity)
    (hover : product.stock_quantity < newQuantity) :
    (CreateSaleModal.updateQuantity s productId newQuantity).cart = s.cart ∧
    (CreateSaleModal.updateQuantity s productId newQuantity).error =
      some (CreateSaleModal.insufficientStockMsg product.name
        product.stock_quantity) := by
  unfold CreateSaleModal.updateQuantity
  rw [if_neg (by omega), hfind]
  simp [hover]

/-- C4 witness: with the scenario product in stock 5, requesting 10
leaves the cart untouched and reports the maximum available. -/
theorem cart_update_rejects_insufficient_stock_witness :
    Fixtures.saleState.products.find? (fun p => p.id == 1) =
      some Fixtures.lap ∧
    (0 : Int) < 10 ∧ Fixtures.lap.stock_quantity < 10 ∧
    ((CreateSaleModal.updateQuantity Fixtures.saleState 1 10).cart =
        Fixtures.saleState.cart ∧
      (CreateSaleModal.updateQuantity Fixtures.saleState 1 10).error =
        some (CreateSaleModal.insufficientStockMsg Fixtures.lap.name
          Fixtures.lap.stock_quantity)) :=
  ⟨by decide, by decide, by decide,
    cart_update_rejects_insufficient_stock Fixtures.saleState 1 10
      Fixtures.lap (by decide) (by decide) (by decide)⟩

namespace CreateSaleModal

/-- Every cart line's stored subtotal is its price times its
quantity. -/
def CartInv (cart : List CartItem) : Prop :=
  ∀ item ∈ cart, item.subtotal = item.price * (item.quantity : Rat)

theorem cartInv_removeFromCart (s : ModalState) (pid : Int)
    (h : CartInv s.cart) : CartInv (removeFromCart s pid).cart := by
  intro item hitem
  exact h item (List.mem_of_mem_filter hitem)

theorem cartInv_updateQuantity (s : ModalState) (pid q : Int)
    (h : CartInv s.cart) : CartInv (updateQuantity s pid q).cart := by
  unfold updateQuantity
  split
  · exact cartInv_removeFromCart s pid h
  · cases hf : s.products.find? (fun p => p.id == pid) with
    | none => exact h
    | some product =>
      dsimp only
      by_cases hst : product.stock_quantity < q
      · rw [if_pos hst]
        exact h
      · rw [if_neg hst]
        intro item hitem
        rcases List.mem_map.mp hitem with ⟨j, hj, rfl⟩
        by_cases hid : j.product_id == pid
        · simp [hid]
        · simp only [hid, if_false, Bool.false_eq_true]
          exact h j hj

theorem cartInv_applyOp (s : ModalState) (op : CartOp)
    (h : CartInv s.cart) : CartInv (applyOp s op).cart := by
  cases op with
  | add product =>
    show CartInv (addToCart s product).cart
    unfold addToCart
    cases hf : s.cart.find? (fun item => item.product_id == product.id) with
    | some existingItem =>
      exact cartInv_updateQuantity s product.id (existingItem.quantity + 1) h
    | none =>
      intro item hitem
      rcases List.mem_append.mp hitem with hold | hnew
      · exact h item hold
      · rcases List.mem_singleton.mp hnew with rfl
        simp
  | update pid q => exact cartInv_updateQuantity s pid q h
  | remove pid => exact cartInv_removeFromCart s pid h

theorem cartInv_runOps (s : ModalState) (ops : List CartOp)
    (h : CartInv s.cart) : CartInv (runOps s ops).cart := by
  induction ops generalizing s with
  | nil => exact h
  | cons op rest ih => exact ih (applyOp s op) (cartInv_applyOp s op h)

theorem foldl_add_subtotal (l : List CartItem) (init : Rat) :
    l.foldl (fun total item => total + item.subtotal) init =
      init + (l.map (fun item => item.subtotal)).sum := by
  induction l generalizing init with
  | nil => simp
  | cons a t ih => simp [ih, add_assoc]

end CreateSaleModal

/-- C10: in every cart state reachable from the empty cart by the
modal's operations, each line's subtotal is its price times its
quantity; `getTotalAmount` is the sum of the subtotals; and an update
to a non-positive quantity removes the line instead of storing it. -/
theorem cart_state_invariants (products : List CreateSaleModal.Product)
    (ops : List CreateSaleModal.CartOp) :
    (∀ item ∈ (CreateSaleModal.runOps
        (CreateSaleModal.initModalState products) ops).cart,
      item.subtotal = item.price * (item.quantity : Rat)) ∧
    CreateSaleModal.getTotalAmount
        (CreateSaleModal.runOps
          (CreateSaleModal.initModalState products) ops) =
      ((CreateSaleModal.runOps
          (CreateSaleModal.initModalState products) ops).cart.map
        (fun item => item.subtotal)).sum ∧
    ∀ pid q : Int, q ≤ 0 →
      CreateSaleModal.updateQuantity
          (CreateSaleModal.runOps
            (CreateSaleModal.initModalState products) ops) pid q =
        CreateSaleModal.removeFromCart
          (CreateSaleModal.runOps
            (CreateSaleModal.initModalState products) ops) pid := by
  refine ⟨?_, ?_, ?_⟩
  · exact CreateSaleModal.cartInv_runOps _ ops (by intro item h; cases h)
  · rw [CreateSaleModal.getTotalAmount, CreateSaleModal.foldl_add_subtotal]
    rw [zero_add]
  · intro pid q hq
    unfold CreateSaleModal.updateQuantity
    rw [if_pos hq]

/-- C10 witness: adding the scenario product twice yields a cart whose
single line satisfies the invariants. -/
theorem cart_state_invariants_witness :
    (∀ item ∈ (CreateSaleModal.runOps
        (CreateSaleModal.initModalState [Fixtures.lap])
        [.add Fixtures.lap, .add Fixtures.lap]).cart,
      item.subtotal = item.price * (item.quantity : Rat)) ∧
    CreateSaleModal.getTotalAmount
        (CreateSaleModal.runOps
          (CreateSaleModal.initModalState [Fixtures.lap])
          [.add Fixtures.lap, .add Fixtures.lap]) =
      ((CreateSaleModal.runOps
          (CreateSaleModal.initModalState [Fixtures.lap])
          [.add Fixtures.lap, .add Fixtures.lap]).cart.map
        (fun item => item.subtotal)).sum ∧
    ∀ pid q : Int, q ≤ 0 →
      CreateSaleModal.updateQuantity
          (CreateSaleModal.runOps
            (CreateSaleModal.initModalState [Fixtures.lap])
            [.add Fixtures.lap, .add Fixtures.lap]) pid q =
        CreateSaleModal.removeFromCart
          (CreateSaleModal.runOps
            (CreateSaleModal.initModalState [Fixtures.lap])
            [.add Fixtures.lap, .add Fixtures.lap]) pid :=
  cart_state_invariants [Fixtures.lap] [.add Fixtures.lap, .add Fixtures.lap]

theorem dropLast_append_two {α : Type} (l : List α) (a b : α) :
    (l ++ [a, b]).dropLast = l ++ [a] := by
  rw [show l ++ [a, b] = (l ++ [a]) ++ [b] by simp]
  exact List.dropLast_concat

/-- C2: an accepted send appends the user turn and the loading
placeholder in one update; resolution — successful or failed —
replaces the placeholder in place with an assistant turn that has
`loading` unset (and, on success, the response's content, data, charts
and workflow id), so the log ends with exactly one more assistant turn
than before the send. -/
theorem chat_send_replaces_placeholder (s : ChatInterface.State)
    (msg : Option String) (r : Chat.ChatResponse) (e : String)
    (hnl : s.isLoading = false)
    (hne : ChatInterface.messageTextOf s msg ≠ "") :
    (ChatInterface.sendStart s msg).messages =
      s.messages ++
        [{ id := s.nextId, role := .user,
           content := ChatInterface.messageTextOf s msg },
         { id := s.nextId + 1, role := .assistant,
           content := "Analizando tu solicitud...", loading := true }] ∧
    (ChatInterface.resolveSuccess (ChatInterface.sendStart s msg) r).messages =
      s.messages ++
        [{ id := s.nextId, role := .user,
           content := ChatInterface.messageTextOf s msg },
         { id := s.nextId + 2, role := .assistant, content := r.response,
           data := r.data, charts := r.charts,
           workflow_id := r.workflow_id, loading := false }] ∧
    (ChatInterface.resolveError (ChatInterface.sendStart s msg) e).messages =
      s.messages ++
        [{ id := s.nextId, role := .user,
           content := ChatInterface.messageTextOf s msg },
         { id := s.nextId + 2, role := .assistant,
           content := "Lo siento, ocurrió un error: " ++ e ++
             ". Por favor, inténtalo de nuevo.",
           loading := false }] ∧
    ChatInterface.assistantCount
        (ChatInterface.resolveSuccess
          (ChatInterface.sendStart s msg) r).messages =
      ChatInterface.assistantCount s.messages + 1 ∧
    ChatInterface.assistantCount
        (ChatInterface.resolveError
          (ChatInterface.sendStart s msg) e).messages =
      ChatInterface.assistantCount s.messages + 1 := by
  have hsend : (ChatInterface.sendStart s msg) =
      { messages := s.messages ++
          [{ id := s.nextId, role := .user,
             content := ChatInterface.messageTextOf s msg },
           { id := s.nextId + 1, role := .assistant,
             content := "Analizando tu solicitud...", loading := true }]
        inputValue := ""
        isLoading := true
        nextId := s.nextId + 2 } := by
    rw [ChatInterface.sendStart]
    simp only [hne, hnl, or_self, if_false, Bool.false_eq_true, or_false,
      if_neg hne]
  refine ⟨by rw [hsend], ?_, ?_, ?_, ?_⟩ <;>
    simp [hsend, ChatInterface.resolveSuccess, ChatInterface.resolveError,
      ChatInterface.assistantCount, dropLast_append_two,
      List.countP_append, List.countP_cons]

/-- C2 witness: sending "hola" from the initial state and resolving
it. -/
theorem chat_send_replaces_placeholder_witness :
    ChatInterface.initialState.isLoading = false ∧
    ChatInterface.messageTextOf ChatInterface.initialState
        (some "hola") ≠ "" ∧
    ((ChatInterface.sendStart ChatInterface.initialState
        (some "hola")).messages =
      ChatInterface.initialState.messages ++
        [{ id := ChatInterface.initialState.nextId, role := .user,
           content := ChatInterface.messageTextOf
             ChatInterface.initialState (some "hola") },
         { id := ChatInterface.initialState.nextId + 1, role := .assistant,
           content := "Analizando tu solicitud...", loading := true }] ∧
    (ChatInterface.resolveSuccess
        (ChatInterface.sendStart ChatInterface.initialState (some "hola"))
        { response := "listo" }).messages =
      ChatInterface.initialState.messages ++
        [{ id := ChatInterface.initialState.nextId, role := .user,
           content := ChatInterface.messageTextOf
             ChatInterface.initialState (some "hola") },
         { id := ChatInterface.initialState.nextId + 2, role := .assistant,
           content := Chat.ChatResponse.response { response := "listo" },
           data := Chat.ChatResponse.data { response := "listo" },
           charts := Chat.ChatResponse.charts { response := "listo" },
           workflow_id :=
             Chat.ChatResponse.workflow_id { response := "listo" },
           loading := false }] ∧
    (ChatInterface.resolveError
        (ChatInterface.sendStart ChatInterface.initialState (some "hola"))
        "falló").messages =
      ChatInterface.initialState.messages ++
        [{ id := ChatInterface.initialState.nextId, role := .user,
           content := ChatInterface.messageTextOf
             ChatInterface.initialState (some "hola") },
         { id := ChatInterface.initialState.nextId + 2, role := .assistant,
           content := "Lo siento, ocurrió un error: " ++ "falló" ++
             ". Por favor, inténtalo de nuevo.",
           loading := false }] ∧
    ChatInterface.assistantCount
        (ChatInterface.resolveSuccess
          (ChatInterface.sendStart ChatInterface.initialState (some "hola"))
          { response := "listo" }).messages =
      ChatInterface.assistantCount
        ChatInterface.initialState.messages + 1 ∧
    ChatInterface.assistantCount
        (ChatInterface.resolveError
          (ChatInterface.sendStart ChatInterface.initialState (some "hola"))
          "falló").messages =
      ChatInterface.assistantCount
        ChatInterface.initialState.messages + 1) :=
  ⟨rfl, by decide,
    chat_send_replaces_placeholder ChatInterface.initialState (some "hola")
      { response := "listo" } "falló" rfl (by decide)⟩

theorem reachable_placeholderInv {s : ChatInterface.State}
    (h : ChatInterface.Reachable s) : ChatInterface.PlaceholderInv s := by
  induction h with
  | init =>
    refine ⟨fun hcontra => ?_, fun _ => ?_⟩
    · simp [ChatInterface.initialState] at hcontra
    · decide
  | type s v hr ih =>
    exact ih
  | send s msg hr ih =>
    by_cases hc : ChatInterface.messageTextOf s msg = "" ∨ s.isLoading
    · have hid : ChatInterface.sendStart s msg = s := by
        rw [ChatInterface.sendStart]
        simp only [if_pos hc]
      rw [hid]
      exact ih
    · push_neg at hc
      have hnl : s.isLoading = false := by
        cases hb : s.isLoading
        · rfl
        · exact absurd hb hc.2
      have hcount := ih.2 hnl
      refine ⟨fun _ => ?_, fun hcontra => ?_⟩
      · refine ⟨s.messages ++
          [{ id := s.nextId, role := .user,
             content := ChatInterface.messageTextOf s msg }],
          { id := s.nextId + 1, role := .assistant,
            content := "Analizando tu solicitud...", loading := true },
          ?_, rfl, ?_⟩
        · rw [ChatInterface.sendStart]
          simp only [if_neg (not_or.mpr hc)]
          simp
        · unfold ChatInterface.loadingCount at hcount ⊢
          rw [List.countP_append, hcount]
          simp
      · rw [ChatInterface.sendStart] at hcontra
        simp only [if_neg (not_or.mpr hc)] at hcontra
        simp at hcontra
  | success s r hr hl ih =>
    obtain ⟨pre, lst, hm, hlst, hpre⟩ := ih.1 hl
    refine ⟨fun hcontra => ?_, fun _ => ?_⟩
    · simp [ChatInterface.resolveSuccess] at hcontra
    · show ChatInterface.loadingCount
        (ChatInterface.resolveSuccess s r).messages = 0
      unfold ChatInterface.loadingCount at hpre ⊢
      simp [ChatInterface.resolveSuccess, hm, List.dropLast_concat,
        List.countP_append, hpre]
  | failure s e hr hl ih =>
    obtain ⟨pre, lst, hm, hlst, hpre⟩ := ih.1 hl
    refine ⟨fun hcontra => ?_, fun _ => ?_⟩
    · simp [ChatInterface.resolveError] at hcontra
    · show ChatInterface.loadingCount
        (ChatInterface.resolveError s e).messages = 0
      unfold ChatInterface.loadingCount at hpre ⊢
      simp [ChatInterface.resolveError, hm, List.dropLast_concat,
        List.countP_append, hpre]
  | modal s c hr hnl ih =>
    refine ⟨fun hcontra => ?_, fun _ => ?_⟩
    · exact absurd hcontra (by simp [ChatInterface.appendAssistant, hnl])
    · have hcount := ih.2 hnl
      unfold ChatInterface.loadingCount at hcount ⊢
      simp [ChatInterface.appendAssistant, List.countP_append, hcount]

/-- C3: every reachable chat session state carries at most one loading
placeholder turn, and invoking the send operation while a request is
in flight is a no-op on the whole state. -/
theorem chat_single_outstanding_request :
    (∀ s : ChatInterface.State, ChatInterface.Reachable s →
      ChatInterface.loadingCount s.messages ≤ 1) ∧
    ∀ (s : ChatInterface.State) (msg : Option String),
      s.isLoading = true → ChatInterface.sendStart s msg = s := by
  constructor
  · intro s hr
    rcases reachable_placeholderInv hr with ⟨h1, h2⟩
    cases hl : s.isLoading with
    | false => simp [h2 hl]
    | true =>
      obtain ⟨pre, lst, hm, hlst, hpre⟩ := h1 hl
      unfold ChatInterface.loadingCount at hpre ⊢
      rw [hm, List.countP_append, hpre]
      simp [List.countP_cons, hlst]
  · intro s msg hl
    rw [ChatInterface.sendStart]
    simp [hl]

/-- C3 witness: the initial state has at most one placeholder, and a
second submit while a request is in flight leaves the state
untouched. -/
theorem chat_single_outstanding_request_witness :
    ChatInterface.loadingCount ChatInterface.initialState.messages ≤ 1 ∧
    Fixtures.loadedChatState.isLoading = true ∧
    ChatInterface.sendStart Fixtures.loadedChatState (some "otra") =
      Fixtures.loadedChatState :=
  ⟨chat_single_outstanding_request.1 ChatInterface.initialState
      ChatInterface.Reachable.init,
    rfl,
    chat_single_outstanding_request.2 Fixtures.loadedChatState
      (some "otra") rfl⟩

namespace CreateProductModal

/-- The per-product success projection of the submission loop. -/
def successName (oracle : Oracle) (p : ProductToAdd) : Option String :=
  match oracle p with
  | .ok _ => some p.name
  | .error _ => none

/-- The per-product failure projection of the submission loop. -/
def failureLine (oracle : Oracle) (p : ProductToAdd) : Option String :=
  match oracle p with
  | .ok _ => none
  | .error msg => some (p.name ++ ": " ++ msg)

theorem submitLoop_foldl (oracle : Oracle) (ps : List ProductToAdd)
    (acc : List String × List String) :
    ps.foldl
      (fun acc product =>
        match oracle product with
        | .ok _ => (acc.1 ++ [product.name], acc.2)
        | .error msg => (acc.1, acc.2 ++ [product.name ++ ": " ++ msg]))
      acc =
    (acc.1 ++ ps.filterMap (successName oracle),
     acc.2 ++ ps.filterMap (failureLine oracle)) := by
  induction ps generalizing acc with
  | nil => simp
  | cons p t ih =>
    cases ho : oracle p with
    | ok u =>
      simp [List.foldl_cons, ho, ih, List.filterMap_cons,
        successName, failureLine]
    | error m =>
      simp [List.foldl_cons, ho, ih, List.filterMap_cons,
        successName, failureLine]

theorem submitLoop_eq (oracle : Oracle) (ps : List ProductToAdd) :
    submitLoop oracle ps =
      (ps.filterMap (successName oracle), ps.filterMap (failureLine oracle)) := by
  rw [submitLoop, submitLoop_foldl]
  simp

theorem filterMap_partition_length (oracle : Oracle)
    (ps : List ProductToAdd) :
    (ps.filterMap (successName oracle)).length +
      (ps.filterMap (failureLine oracle)).length = ps.length := by
  induction ps with
  | nil => simp
  | cons p t ih =>
    cases ho : oracle p with
    | ok u =>
      simp only [List.filterMap_cons, successName, failureLine, ho,
        List.length_cons]
      omega
    | error m =>
      simp only [List.filterMap_cons, successName, failureLine, ho,
        List.length_cons]
      omega

theorem submitLoop_length (oracle : Oracle) (ps : List ProductToAdd) :
    (submitLoop oracle ps).1.length + (submitLoop oracle ps).2.length =
      ps.length := by
  rw [submitLoop_eq]
  exact filterMap_partition_length oracle ps

theorem appendBullets_extend (init : String) (items : List String) :
    ∃ t, appendBullets init items = init ++ t := by
  induction items generalizing init with
  | nil => exact ⟨"", (String.append_empty init).symm⟩
  | cons a l ih =>
    obtain ⟨t, ht⟩ := ih (init ++ ("• " ++ a ++ "\n"))
    refine ⟨("• " ++ a ++ "\n") ++ t, ?_⟩
    show appendBullets (init ++ ("• " ++ a ++ "\n")) l = _
    rw [ht, String.append_assoc]

theorem appendBullets_mem (init : String) (items : List String) (x : String)
    (h : x ∈ items) :
    ∃ pre t, appendBullets init items = pre ++ ("• " ++ x ++ "\n") ++ t := by
  induction items generalizing init with
  | nil => cases h
  | cons a l ih =>
    rcases List.mem_cons.mp h with rfl | hmem
    · obtain ⟨t, ht⟩ := appendBullets_extend (init ++ ("• " ++ x ++ "\n")) l
      exact ⟨init, t, ht⟩
    · obtain ⟨pre, t, ht⟩ := ih (init ++ ("• " ++ a ++ "\n")) hmem
      exact ⟨pre, t, ht⟩

theorem buildMessage_mem_failure (results failures : List String)
    (x : String) (h : x ∈ failures) :
    ∃ pre t, buildMessage results failures =
      pre ++ ("• " ++ x ++ "\n") ++ t := by
  have hlen : 0 < failures.length :=
    List.length_pos.mpr (List.ne_nil_of_mem h)
  rw [buildMessage, if_pos hlen]
  exact appendBullets_mem _ _ x h

theorem buildMessage_mem_success (results failures : List String)
    (x : String) (h : x ∈ results) :
    ∃ pre t, buildMessage results failures =
      pre ++ ("• " ++ x ++ "\n") ++ t := by
  have hlen : 0 < results.length :=
    List.length_pos.mpr (List.ne_nil_of_mem h)
  obtain ⟨pre, t, ht⟩ := appendBullets_mem
    ("✅ **" ++ toString results.length ++
      " producto(s) agregado(s) exitosamente:**\n\n") results x h
  have hpart : successPart results = pre ++ ("• " ++ x ++ "\n") ++ t := by
    rw [successPart, if_pos hlen, ht]
  rw [buildMessage]
  by_cases hf : 0 < failures.length
  · rw [if_pos hf]
    obtain ⟨t2, ht2⟩ := appendBullets_extend
      (successPart results ++ "\n❌ **" ++ toString failures.length ++
        " producto(s) fallaron:**\n\n") failures
    refine ⟨pre, t ++ "\n❌ **" ++ toString failures.length ++
      " producto(s) fallaron:**\n\n" ++ t2, ?_⟩
    rw [ht2, hpart]
    simp [String.append_assoc]
  · rw [if_neg hf]
    exact ⟨pre, t, hpart⟩

end CreateProductModal

/-- C7: the multi-product add flow submits every product of the batch
independently — a failure removes nothing that follows from
processing — and the produced success and failure lists cover the
whole batch, each failure carrying its per-product reason; the
resulting message lists every succeeded and every failed product as a
bullet line. -/
theorem multi_product_add_partial_success
    (oracle : CreateProductModal.Oracle)
    (ps : List CreateProductModal.ProductToAdd) :
    (CreateProductModal.submitLoop oracle ps).1 =
      ps.filterMap (CreateProductModal.successName oracle) ∧
    (CreateProductModal.submitLoop oracle ps).2 =
      ps.filterMap (CreateProductModal.failureLine oracle) ∧
    (CreateProductModal.submitLoop oracle ps).1.length +
        (CreateProductModal.submitLoop oracle ps).2.length = ps.length ∧
    (∀ x ∈ (CreateProductModal.submitLoop oracle ps).1,
      ∃ pre t, CreateProductModal.buildMessage
          (CreateProductModal.submitLoop oracle ps).1
          (CreateProductModal.submitLoop oracle ps).2 =
        pre ++ ("• " ++ x ++ "\n") ++ t) ∧
    (∀ x ∈ (CreateProductModal.submitLoop oracle ps).2,
      ∃ pre t, CreateProductModal.buildMessage
          (CreateProductModal.submitLoop oracle ps).1
          (CreateProductModal.submitLoop oracle ps).2 =
        pre ++ ("• " ++ x ++ "\n") ++ t) := by
  refine ⟨?_, ?_, CreateProductModal.submitLoop_length oracle ps, ?_, ?_⟩
  · rw [CreateProductModal.submitLoop_eq]
  · rw [CreateProductModal.submitLoop_eq]
  · intro x hx
    exact CreateProductModal.buildMessage_mem_success _ _ x hx
  · intro x hx
    exact CreateProductModal.buildMessage_mem_failure _ _ x hx

/-- C7 witness: a two-product batch whose second product fails is
reported as one success and one failure with its reason. -/
theorem multi_product_add_partial_success_witness :
    (CreateProductModal.submitLoop Fixtures.failSecond
        [Fixtures.goodRow, Fixtures.otherRow]).1 =
      [Fixtures.goodRow, Fixtures.otherRow].filterMap
        (CreateProductModal.successName Fixtures.failSecond) ∧
    (CreateProductModal.submitLoop Fixtures.failSecond
        [Fixtures.goodRow, Fixtures.otherRow]).2 =
      [Fixtures.goodRow, Fixtures.otherRow].filterMap
        (CreateProductModal.failureLine Fixtures.failSecond) ∧
    (CreateProductModal.submitLoop Fixtures.failSecond
        [Fixtures.goodRow, Fixtures.otherRow]).1.length +
        (CreateProductModal.submitLoop Fixtures.failSecond
          [Fixtures.goodRow, Fixtures.otherRow]).2.length =
      [Fixtures.goodRow, Fixtures.otherRow].length ∧
    (∀ x ∈ (CreateProductModal.submitLoop Fixtures.failSecond
        [Fixtures.goodRow, Fixtures.otherRow]).1,
      ∃ pre t, CreateProductModal.buildMessage
          (CreateProductModal.submitLoop Fixtures.failSecond
            [Fixtures.goodRow, Fixtures.otherRow]).1
          (CreateProductModal.submitLoop Fixtures.failSecond
            [Fixtures.goodRow, Fixtures.otherRow]).2 =
        pre ++ ("• " ++ x ++ "\n") ++ t) ∧
    (∀ x ∈ (CreateProductModal.submitLoop Fixtures.failSecond
        [Fixtures.goodRow, Fixtures.otherRow]).2,
      ∃ pre t, CreateProductModal.buildMessage
          (CreateProductModal.submitLoop Fixtures.failSecond
            [Fixtures.goodRow, Fixtures.otherRow]).1
          (CreateProductModal.submitLoop Fixtures.failSecond
            [Fixtures.goodRow, Fixtures.otherRow]).2 =
        pre ++ ("• " ++ x ++ "\n") ++ t) :=
  multi_product_add_partial_success Fixtures.failSecond
    [Fixtures.goodRow, Fixtures.otherRow]

theorem ite_singleton_eq_nil {c : Prop} [Decidable c] (e : String) :
    ((if c then [e] else []) = []) ↔ ¬c := by
  split_ifs with h <;> simp [h]

theorem productErrors_eq_nil (i : Nat)
    (p : CreateProductModal.ProductToAdd) :
    CreateProductModal.productErrors i p = [] ↔
      CreateProductModal.ValidProduct p := by
  unfold CreateProductModal.productErrors CreateProductModal.ValidProduct
  cases hp : p.price <;> cases hc : p.category <;>
    simp [List.append_eq_nil, ite_singleton_eq_nil, not_lt, not_le, hp, hc]

theorem productErrors_sub_validate
    (ps : List CreateProductModal.ProductToAdd) (ip : Nat ×
      CreateProductModal.ProductToAdd) (hip : ip ∈ ps.enum) (e : String)
    (he : e ∈ CreateProductModal.productErrors ip.1 ip.2) :
    e ∈ CreateProductModal.validateProducts ps := by
  unfold CreateProductModal.validateProducts
  rw [List.mem_flatten]
  exact ⟨CreateProductModal.productErrors ip.1 ip.2,
    List.mem_map.mpr ⟨ip, hip, rfl⟩, he⟩

theorem validateProducts_eq_nil
    (ps : List CreateProductModal.ProductToAdd) :
    CreateProductModal.validateProducts ps = [] ↔
      ∀ p ∈ ps, CreateProductModal.ValidProduct p := by
  unfold CreateProductModal.validateProducts
  rw [List.flatten_eq_nil_iff]
  constructor
  · intro h p hp
    rcases List.mem_iff_getElem.mp hp with ⟨i, hi, rfl⟩
    have hmem : (i, ps[i]) ∈ ps.enum := by
      rw [List.mem_enum_iff_getElem?]
      exact List.getElem?_eq_getElem hi
    exact (productErrors_eq_nil i ps[i]).mp
      (h _ (List.mem_map.mpr ⟨(i, ps[i]), hmem, rfl⟩))
  · intro h l hl
    rcases List.mem_map.mp hl with ⟨ip, hip, rfl⟩
    exact (productErrors_eq_nil ip.1 ip.2).mpr
      (h ip.2 (List.getElem?_mem (List.mem_enum_iff_getElem?.mp hip)))

/-- C8: add-product validation accepts a batch exactly when every
product has a non-blank name, quantity at least 1, a present positive
price and a present non-blank category; requests are issued only when
validation passes; and every invalid product contributes its own
validation errors to the reported list. -/
theorem add_product_validation (oracle : CreateProductModal.Oracle)
    (ps : List CreateProductModal.ProductToAdd) :
    (CreateProductModal.validateProducts ps = [] ↔
      ∀ p ∈ ps, CreateProductModal.ValidProduct p) ∧
    ((CreateProductModal.handleSubmit oracle ps).isSome ↔
      CreateProductModal.validateProducts ps = []) ∧
    ∀ ip ∈ ps.enum, ¬CreateProductModal.ValidProduct ip.2 →
      CreateProductModal.productErrors ip.1 ip.2 ≠ [] ∧
      ∀ e ∈ CreateProductModal.productErrors ip.1 ip.2,
        e ∈ CreateProductModal.validateProducts ps := by
  refine ⟨validateProducts_eq_nil ps, ?_, ?_⟩
  · rw [CreateProductModal.handleSubmit]
    by_cases hv : CreateProductModal.validateProducts ps = []
    · simp [hv]
    · simp [hv]
  · intro ip hip hinvalid
    refine ⟨fun hnil => hinvalid ((productErrors_eq_nil ip.1 ip.2).mp hnil),
      fun e he => productErrors_sub_validate ps ip hip e he⟩

/-- C8 witness: a batch holding the valid scenario product and the
`price:0` product fails validation and issues no request; the batch of
the valid product alone passes. -/
theorem add_product_validation_witness :
    ¬CreateProductModal.ValidProduct Fixtures.badRow ∧
    CreateProductModal.ValidProduct Fixtures.goodRow ∧
    CreateProductModal.validateProducts
      [Fixtures.goodRow, Fixtures.badRow] ≠ [] ∧
    CreateProductModal.handleSubmit Fixtures.failSecond
      [Fixtures.goodRow, Fixtures.badRow] = none ∧
    (CreateProductModal.validateProducts [Fixtures.goodRow] = [] ↔
      ∀ p ∈ [Fixtures.goodRow], CreateProductModal.ValidProduct p) :=
  ⟨by
    rintro ⟨-, -, ⟨v, hv, hpos⟩, -⟩
    rw [show Fixtures.badRow.price = some 0 from rfl] at hv
    rw [← Option.some_inj.mp hv] at hpos
    exact absurd hpos (lt_irrefl 0),
   ⟨by decide,
    by decide,
    ⟨50, rfl, by norm_num⟩,
    ⟨"Electrónicos", rfl, by decide⟩⟩,
   by decide,
   by decide,
   (add_product_validation Fixtures.failSecond [Fixtures.goodRow]).1⟩

theorem validateItems_insufficient (store : List InventorySync.Product)
    (items : List InventorySync.OrderItem)
    (hwf : ∀ it ∈ items, 1 ≤ it.quantity ∧
      (InventorySync.lookup store it.product_id).isSome = true)
    (hover : ∃ it ∈ items, ∃ p,
      InventorySync.lookup store it.product_id = some p ∧
      p.quantity < it.quantity) :
    ∃ pid nm req avail,
      InventorySync.validateItems store items =
        some (.insufficientStock pid nm req avail) ∧
      avail < req ∧
      (∃ it ∈ items, it.product_id = pid ∧ it.quantity = req) ∧
      ∃ p, InventorySync.lookup store pid = some p ∧ p.name = nm ∧
        p.quantity = avail := by
  revert hwf hover
  induction items with
  | nil =>
    intro _ hover
    rcases hover with ⟨it, hit, -⟩
    exact absurd hit (List.not_mem_nil it)
  | cons a t ih =>
    intro hwf hover
    obtain ⟨hq, hsome⟩ := hwf a (List.mem_cons_self a t)
    obtain ⟨p, hp⟩ := Option.isSome_iff_exists.mp hsome
    have hid : p.id = a.product_id := by
      have := List.find?_some hp
      simpa [beq_iff_eq] using this
    rw [InventorySync.validateItems, if_neg (by omega), hp]
    dsimp only
    by_cases hstock : p.quantity < a.quantity
    · rw [if_pos hstock]
      refine ⟨p.id, p.name, a.quantity, p.quantity, rfl, hstock,
        ⟨a, List.mem_cons_self a t, hid.symm, rfl⟩, p, ?_, rfl, rfl⟩
      rw [hid]
      exact hp
    · rw [if_neg hstock]
      have hrest : ∃ it ∈ t, ∃ q,
          InventorySync.lookup store it.product_id = some q ∧
          q.quantity < it.quantity := by
        rcases hover with ⟨it, hit, q, hq', hlt⟩
        rcases List.mem_cons.mp hit with rfl | hmem
        · rw [hp] at hq'
          cases hq'
          exact absurd hlt hstock
        · exact ⟨it, hmem, q, hq', hlt⟩
      obtain ⟨pid, nm, req, avail, hval, hlt, ⟨it, hit, hpid, hreq⟩, hq'⟩ :=
        ih (fun it hit => hwf it (List.mem_cons_of_mem a hit)) hrest
      exact ⟨pid, nm, req, avail, hval, hlt,
        ⟨it, List.mem_cons_of_mem a hit, hpid, hreq⟩, hq'⟩

/-- C1: a proposed order whose line items are well-formed (positive
quantities, resolving product ids) but in which some line requests
more than the referenced product's stock is rejected as a whole with
an insufficient-stock error naming an offending product and the
maximum available, and the product store is returned unchanged — no
partial commit. -/
theorem create_order_rejects_insufficient_stock
    (store : List InventorySync.Product)
    (items : List InventorySync.OrderItem) (pm : String) (n : Nat)
    (hpm : pm ∈ InventorySync.paymentMethods)
    (hwf : ∀ it ∈ items, 1 ≤ it.quantity ∧
      (InventorySync.lookup store it.product_id).isSome = true)
    (hover : ∃ it ∈ items, ∃ p,
      InventorySync.lookup store it.product_id = some p ∧
      p.quantity < it.quantity) :
    (∃ pid nm req avail,
      (InventorySync.create_order_with_inventory_sync store items pm n).1 =
        .error (.insufficientStock pid nm req avail) ∧
      avail < req ∧
      (∃ it ∈ items, it.product_id = pid ∧ it.quantity = req) ∧
      ∃ p, InventorySync.lookup store pid = some p ∧ p.name = nm ∧
        p.quantity = avail) ∧
    (InventorySync.create_order_with_inventory_sync store items pm n).2 =
      store := by
  have hne : ¬items.isEmpty := by
    rcases hover with ⟨it, hit, -⟩
    cases items with
    | nil => exact absurd hit (List.not_mem_nil it)
    | cons a t => simp [List.isEmpty]
  obtain ⟨pid, nm, req, avail, hval, hlt, hit, hq⟩ :=
    validateItems_insufficient store items hwf hover
  rw [InventorySync.create_order_with_inventory_sync,
    if_neg hne, if_neg (not_not_intro hpm), hval]
  exact ⟨⟨pid, nm, req, avail, rfl, hlt, hit, hq⟩, rfl⟩

/-- C1 witness: the specification's scenario — one product with stock
5, an order requesting 10 — is rejected with the insufficient-stock
error and leaves the store unchanged. -/
theorem create_order_rejects_insufficient_stock_witness :
    "credit_card" ∈ InventorySync.paymentMethods ∧
    (∀ it ∈ [InventorySync.OrderItem.mk 1 10], 1 ≤ it.quantity ∧
      (InventorySync.lookup [Fixtures.lapRow] it.product_id).isSome = true) ∧
    ((∃ pid nm req avail,
      (InventorySync.create_order_with_inventory_sync [Fixtures.lapRow]
          [InventorySync.OrderItem.mk 1 10] "credit_card" 7).1 =
        .error (.insufficientStock pid nm req avail) ∧
      avail < req ∧
      (∃ it ∈ [InventorySync.OrderItem.mk 1 10],
        it.product_id = pid ∧ it.quantity = req) ∧
      ∃ p, InventorySync.lookup [Fixtures.lapRow] pid = some p ∧
        p.name = nm ∧ p.quantity = avail) ∧
    (InventorySync.create_order_with_inventory_sync [Fixtures.lapRow]
        [InventorySync.OrderItem.mk 1 10] "credit_card" 7).2 =
      [Fixtures.lapRow]) :=
  ⟨by decide, by decide,
    create_order_rejects_insufficient_stock [Fixtures.lapRow]
      [InventorySync.OrderItem.mk 1 10] "credit_card" 7 (by decide)
      (by decide)
      ⟨InventorySync.OrderItem.mk 1 10, by decide, Fixtures.lapRow,
        by decide, by decide⟩⟩
